import Mathlib

/-!
Verification of `assessRecaptchaToken` from `recaptcha-v3-verify` (src/index.ts).

The single exported operation issues one POST to the reCAPTCHA Enterprise
assessment endpoint and maps the raw HTTP/JSON outcome to a result value.
The embedding makes the environment explicit:
  * the transport is an oracle `HttpRequest → FetchOutcome` (a thrown
    exception during `fetch` is the outcome `throws`, carrying the
    exception message when the exception is an `Error`);
  * `res.text()` may itself reject, so the body read is an `Except`;
  * `JSON.parse` is an oracle `String → Option Json` (`none` = parse throws);
  * to reason about how many outbound calls an invocation makes, the
    function threads a trace of issued requests.
-/

/-- A JSON value, as produced by `JSON.parse` / consumed by `JSON.stringify`. -/
inductive Json where
  | null : Json
  | bool : Bool → Json
  | num : Int → Json
  | str : String → Json
  | arr : List Json → Json
  | obj : List (String × Json) → Json

/-- Hexadecimal digit (lower case), as used by `JSON.stringify` escapes. -/
def hexDigit (n : Nat) : Char :=
  if n < 10 then Char.ofNat (48 + n) else Char.ofNat (87 + n)

/-- Escaping of a single character inside a JSON string literal,
following `JSON.stringify` semantics. -/
def escapeChar (c : Char) : String :=
  if c = '"' then "\\\""
  else if c = '\\' then "\\\\"
  else if c = '\x08' then "\\b"
  else if c = '\x0c' then "\\f"
  else if c = '\n' then "\\n"
  else if c = '\r' then "\\r"
  else if c = '\t' then "\\t"
  else if c.toNat < 32 then
    "\\u00" ++ String.mk [hexDigit (c.toNat / 16), hexDigit (c.toNat % 16)]
  else String.singleton c

/-- `JSON.stringify` escaping of a string body. -/
def jsonEscape (s : String) : String :=
  String.join (s.toList.map escapeChar)

/-- A string rendered as a JSON string literal. -/
def jsonQuote (s : String) : String :=
  "\"" ++ jsonEscape s ++ "\""

/-- The serialized request body
`JSON.stringify(\x7b event: \x7b token, siteKey, expectedAction \x7d \x7d)`
from src/index.ts. -/
def stringifyEventBody (token siteKey expectedAction : String) : String :=
  "\x7b\"event\":\x7b\"token\":" ++ jsonQuote token
    ++ ",\"siteKey\":" ++ jsonQuote siteKey
    ++ ",\"expectedAction\":" ++ jsonQuote expectedAction
    ++ "\x7d\x7d"

/-- The options record taken by `assessRecaptchaToken` (src/index.ts). -/
structure AssessOptions where
  token : String
  siteKey : String
  expectedAction : String
  api_token : String
  projectId : String
deriving DecidableEq

/-- An outbound HTTP request as assembled by the `fetch` call site. -/
structure HttpRequest where
  url : String
  method : String
  contentType : String
  body : String
deriving DecidableEq

/-- The observable part of a `fetch` `Response`: status, status text, and the
result of `res.text()` (`Except.error` models `text()` rejecting; the payload
is the exception message when the exception is an `Error`). -/
structure HttpResponse where
  status : Nat
  statusText : String
  textResult : Except (Option String) String

/-- `Response.ok` per the Fetch standard: status in the range 200–299. -/
def HttpResponse.ok (r : HttpResponse) : Bool :=
  200 ≤ r.status && r.status ≤ 299

/-- Outcome of one `fetch` call: either the promise rejects (`throws`, with
the exception message when the exception is an `Error`, `none` for a
non-`Error` throw) or a `Response` arrives. -/
inductive FetchOutcome where
  | throws : Option String → FetchOutcome
  | response : HttpResponse → FetchOutcome

/-- The error shape `\x7b error: \x7b code, message \x7d \x7d` returned on
every failure path of src/index.ts. -/
def errorShape (code : Nat) (message : String) : Json :=
  Json.obj [("error", Json.obj [("code", Json.num code), ("message", Json.str message)])]

/-- The URL built at the `fetch` call site of src/index.ts. -/
def requestUrl (o : AssessOptions) : String :=
  "https://recaptchaenterprise.googleapis.com/v1/projects/" ++ o.projectId
    ++ "/assessments?key=" ++ o.api_token

/-- The single request assembled by `assessRecaptchaToken`: POST, JSON
content type, event body. -/
def buildRequest (o : AssessOptions) : HttpRequest :=
  { url := requestUrl o
    method := "POST"
    contentType := "application/json"
    body := stringifyEventBody o.token o.siteKey o.expectedAction }

/-- Shallow embedding of `assessRecaptchaToken` (src/index.ts lines 78–149).
`p` is the `JSON.parse` oracle, `t` the transport; `calls` is the trace of
requests issued before this invocation, and the returned trace extends it
with every request this invocation issues. The branches mirror the source:
rejected fetch and rejected `text()` land in the outer catch; `!res.ok`
returns the status/statusText error; empty text and failed parse return the
two fixed 500 errors; otherwise the parsed JSON is returned as-is. -/
def assessRecaptchaToken (p : String → Option Json) (t : HttpRequest → FetchOutcome)
    (o : AssessOptions) (calls : List HttpRequest) : Json × List HttpRequest :=
  let req := buildRequest o
  let calls1 := calls ++ [req]
  match t req with
  | FetchOutcome.throws errMessage =>
      (errorShape 500 (errMessage.getD ("Failed to assess recaptcha token")), calls1)
  | FetchOutcome.response res =>
      if !res.ok then
        (errorShape res.status ("HTTP error: " ++ res.statusText), calls1)
      else
        match res.textResult with
        | Except.error errMessage =>
            (errorShape 500 (errMessage.getD ("Failed to assess recaptcha token")), calls1)
        | Except.ok text =>
            if text = "" then
              (errorShape 500 ("Empty response from reCAPTCHA API"), calls1)
            else
              match p text with
              | some v => (v, calls1)
              | none => (errorShape 500 ("Invalid JSON response from reCAPTCHA API"), calls1)

/-- Field lookup in a JSON object. -/
def Json.getField : Json → String → Option Json
  | Json.obj fields, k => (fields.find? (fun kv => kv.1 = k)).map (fun kv => kv.2)
  | _, _ => none

/-- The `error.message` string of a result, when present. -/
def errMessageOf (j : Json) : Option String :=
  match j.getField ("error") with
  | some e =>
      match e.getField ("message") with
      | some (Json.str m) => some m
      | _ => none
  | none => none

/-- Fixed options used to instantiate witnesses. -/
def optsW : AssessOptions :=
  { token := "tok1", siteKey := "site1", expectedAction := "login"
    api_token := "key1", projectId := "proj1" }

/-- Helper: the trace component of an invocation is the incoming trace
extended with exactly the one built request, whatever the outcome. -/
theorem assess_trace (p : String → Option Json) (t : HttpRequest → FetchOutcome)
    (o : AssessOptions) (calls : List HttpRequest) :
    (assessRecaptchaToken p t o calls).2 = calls ++ [buildRequest o] := by
  cases h : t (buildRequest o) with
  | throws m => simp [assessRecaptchaToken, h]
  | response res =>
      cases hok : res.ok with
      | false => simp [assessRecaptchaToken, h, hok]
      | true =>
          cases htext : res.textResult with
          | error m => simp [assessRecaptchaToken, h, hok, htext]
          | ok text =>
              by_cases hempty : text = ""
              · simp [assessRecaptchaToken, h, hok, htext, hempty]
              · cases hp : p text <;>
                  simp [assessRecaptchaToken, h, hok, htext, hempty, hp]

/-- Helper: the result component of an invocation does not depend on the
incoming trace. -/
theorem assess_result_indep_calls (p : String → Option Json)
    (t : HttpRequest → FetchOutcome) (o : AssessOptions)
    (c c' : List HttpRequest) :
    (assessRecaptchaToken p t o c).1 = (assessRecaptchaToken p t o c').1 := by
  cases h : t (buildRequest o) with
  | throws m => simp [assessRecaptchaToken, h]
  | response res =>
      cases hok : res.ok with
      | false => simp [assessRecaptchaToken, h, hok]
      | true =>
          cases htext : res.textResult with
          | error m => simp [assessRecaptchaToken, h, hok, htext]
          | ok text =>
              by_cases hempty : text = ""
              · simp [assessRecaptchaToken, h, hok, htext, hempty]
              · cases hp : p text <;>
                  simp [assessRecaptchaToken, h, hok, htext, hempty, hp]

/-- Claim C1: for every request and every transport outcome (response with
any status, empty or malformed body, or a thrown exception during I/O or
parsing), `assessRecaptchaToken` returns a value: either the error shape
`\x7b error: \x7b code, message \x7d \x7d`, or the JSON-parsed body of a
successfully parsed success response. No outcome escapes these two cases. -/
theorem assess_never_throws (p : String → Option Json)
    (t : HttpRequest → FetchOutcome) (o : AssessOptions) (calls : List HttpRequest) :
    (∃ c m, (assessRecaptchaToken p t o calls).1 = errorShape c m) ∨
    (∃ text v, p text = some v ∧ (assessRecaptchaToken p t o calls).1 = v) := by
  cases h : t (buildRequest o) with
  | throws m =>
      exact Or.inl ⟨500, m.getD ("Failed to assess recaptcha token"),
        by simp [assessRecaptchaToken, h]⟩
  | response res =>
      cases hok : res.ok with
      | false =>
          exact Or.inl ⟨res.status, "HTTP error: " ++ res.statusText,
            by simp [assessRecaptchaToken, h, hok]⟩
      | true =>
          cases htext : res.textResult with
          | error m =>
              exact Or.inl ⟨500, m.getD ("Failed to assess recaptcha token"),
                by simp [assessRecaptchaToken, h, hok, htext]⟩
          | ok text =>
              by_cases hempty : text = ""
              · exact Or.inl ⟨500, "Empty response from reCAPTCHA API",
                  by simp [assessRecaptchaToken, h, hok, htext, hempty]⟩
              · cases hp : p text with
                | some v =>
                    exact Or.inr ⟨text, v, hp,
                      by simp [assessRecaptchaToken, h, hok, htext, hempty, hp]⟩
                | none =>
                    exact Or.inl ⟨500, "Invalid JSON response from reCAPTCHA API",
                      by simp [assessRecaptchaToken, h, hok, htext, hempty, hp]⟩

/-- Claim C2: when the transport returns HTTP 200 and the body text is
non-empty and parses as JSON, the result is exactly the parsed value —
nothing is added, dropped, renamed or validated. -/
theorem assess_success_returns_parsed_body (p : String → Option Json)
    (t : HttpRequest → FetchOutcome) (o : AssessOptions) (calls : List HttpRequest)
    (res : HttpResponse) (text : String) (v : Json)
    (hres : t (buildRequest o) = FetchOutcome.response res)
    (hstatus : res.status = 200)
    (htext : res.textResult = Except.ok text)
    (hne : text ≠ "")
    (hp : p text = some v) :
    (assessRecaptchaToken p t o calls).1 = v := by
  have hok : res.ok = true := by simp [HttpResponse.ok, hstatus]
  simp [assessRecaptchaToken, hres, hok, htext, hne, hp]

/-- Witness for C2: a concrete 200 response with body text that parses to
`Json.bool true` yields exactly that value. -/
theorem assess_success_returns_parsed_body_witness :
    (assessRecaptchaToken (fun _ => some (Json.bool true))
      (fun _ => FetchOutcome.response ⟨200, "OK", Except.ok ("\x7b\x7d")⟩)
      optsW []).1 = Json.bool true :=
  assess_success_returns_parsed_body _ _ optsW [] ⟨200, "OK", Except.ok ("\x7b\x7d")⟩
    ("\x7b\x7d") (Json.bool true) rfl rfl rfl (by decide) rfl

/-- Claim C3: on a response with a non-success status (`res.ok` false), the
result is the error shape with `code` = the HTTP status and `message` =
`"HTTP error: "` followed by the status text; the body (`textResult`) and
the parser are never consulted (the conclusion holds for every `textResult`
and every `p`). -/
theorem assess_non_success_status (p : String → Option Json)
    (t : HttpRequest → FetchOutcome) (o : AssessOptions) (calls : List HttpRequest)
    (res : HttpResponse)
    (hres : t (buildRequest o) = FetchOutcome.response res)
    (hok : res.ok = false) :
    (assessRecaptchaToken p t o calls).1 =
      errorShape res.status ("HTTP error: " ++ res.statusText) := by
  simp [assessRecaptchaToken, hres, hok]

/-- Witness for C3: a concrete 404 response (with a body that would parse)
yields the 404 error shape built from the status text. -/
theorem assess_non_success_status_witness :
    (assessRecaptchaToken (fun _ => some Json.null)
      (fun _ => FetchOutcome.response ⟨404, "Not Found", Except.ok ("ignored")⟩)
      optsW []).1 = errorShape 404 ("HTTP error: Not Found") :=
  assess_non_success_status _ _ optsW [] ⟨404, "Not Found", Except.ok ("ignored")⟩
    rfl (by decide)

/-- Claim C4 (amended): when the transport throws, the result is the error
shape with code 500 and message equal to the exception's description when
the exception is an `Error` (even when that description is the empty
string), or the fixed fallback `"Failed to assess recaptcha token"` when it
is not an `Error`. -/
theorem assess_transport_throw_error_result (p : String → Option Json)
    (t : HttpRequest → FetchOutcome) (o : AssessOptions) (calls : List HttpRequest)
    (msg : Option String)
    (hthrow : t (buildRequest o) = FetchOutcome.throws msg) :
    (assessRecaptchaToken p t o calls).1 =
      errorShape 500 (msg.getD ("Failed to assess recaptcha token")) := by
  simp [assessRecaptchaToken, hthrow]

/-- Witness for C4 (amended): an `Error` with description
`"network unreachable"` yields the 500 error shape with that message. -/
theorem assess_transport_throw_error_result_witness :
    (assessRecaptchaToken (fun _ => none)
      (fun _ => FetchOutcome.throws (some ("network unreachable")))
      optsW []).1 = errorShape 500 ("network unreachable") :=
  assess_transport_throw_error_result _ _ optsW [] (some ("network unreachable")) rfl

/-- Counterexample to C4 as stated: an `Error` whose description is the
empty string is thrown by the transport; the result is the error shape with
code 500 whose message is the EMPTY string, contradicting the claim that
the message is always non-empty. -/
theorem assess_transport_throw_empty_message :
    (assessRecaptchaToken (fun _ => none)
      (fun _ => FetchOutcome.throws (some (""))) optsW []).1 = errorShape 500 ("") ∧
    errMessageOf (assessRecaptchaToken (fun _ => none)
      (fun _ => FetchOutcome.throws (some (""))) optsW []).1 = some ("") :=
  ⟨rfl, rfl⟩

/-- Claim C5: a success-status response whose body text is empty yields the
error shape with code 500 and the fixed message
`"Empty response from reCAPTCHA API"` (which indicates an empty body). -/
theorem assess_empty_body_error (p : String → Option Json)
    (t : HttpRequest → FetchOutcome) (o : AssessOptions) (calls : List HttpRequest)
    (res : HttpResponse)
    (hres : t (buildRequest o) = FetchOutcome.response res)
    (hok : res.ok = true)
    (htext : res.textResult = Except.ok ("")) :
    (assessRecaptchaToken p t o calls).1 =
      errorShape 500 ("Empty response from reCAPTCHA API") := by
  simp [assessRecaptchaToken, hres, hok, htext]

/-- Witness for C5: a concrete 200 response with empty body. -/
theorem assess_empty_body_error_witness :
    (assessRecaptchaToken (fun _ => some Json.null)
      (fun _ => FetchOutcome.response ⟨200, "OK", Except.ok ("")⟩)
      optsW []).1 = errorShape 500 ("Empty response from reCAPTCHA API") :=
  assess_empty_body_error _ _ optsW [] ⟨200, "OK", Except.ok ("")⟩ rfl (by decide) rfl

/-- Claim C6: a success-status response whose body text is non-empty but
fails to parse as JSON yields the error shape with code 500 and the fixed
message `"Invalid JSON response from reCAPTCHA API"`. -/
theorem assess_invalid_json_error (p : String → Option Json)
    (t : HttpRequest → FetchOutcome) (o : AssessOptions) (calls : List HttpRequest)
    (res : HttpResponse) (text : String)
    (hres : t (buildRequest o) = FetchOutcome.response res)
    (hok : res.ok = true)
    (htext : res.textResult = Except.ok text)
    (hne : text ≠ "")
    (hp : p text = none) :
    (assessRecaptchaToken p t o calls).1 =
      errorShape 500 ("Invalid JSON response from reCAPTCHA API") := by
  simp [assessRecaptchaToken, hres, hok, htext, hne, hp]

/-- Witness for C6: a concrete 200 response with body `"not-json"` and a
parser that rejects it. -/
theorem assess_invalid_json_error_witness :
    (assessRecaptchaToken (fun _ => none)
      (fun _ => FetchOutcome.response ⟨200, "OK", Except.ok ("not-json")⟩)
      optsW []).1 = errorShape 500 ("Invalid JSON response from reCAPTCHA API") :=
  assess_invalid_json_error _ _ optsW [] ⟨200, "OK", Except.ok ("not-json")⟩
    ("not-json") rfl (by decide) rfl (by decide) rfl

/-- Claim C7: for every request and every transport, the single outbound
call is a POST to the fixed URL template with `projectId` in the path and
`api_token` as the `key` query parameter, with JSON content type, and with
body the JSON serialization of one `event` object holding exactly `token`,
`siteKey` and `expectedAction`. -/
theorem assess_sends_fixed_post (p : String → Option Json)
    (t : HttpRequest → FetchOutcome) (o : AssessOptions) :
    (assessRecaptchaToken p t o []).2 =
      [{ url := "https://recaptchaenterprise.googleapis.com/v1/projects/"
            ++ o.projectId ++ "/assessments?key=" ++ o.api_token
         method := "POST"
         contentType := "application/json"
         body := "\x7b\"event\":\x7b\"token\":" ++ jsonQuote o.token
            ++ ",\"siteKey\":" ++ jsonQuote o.siteKey
            ++ ",\"expectedAction\":" ++ jsonQuote o.expectedAction
            ++ "\x7d\x7d" }] := by
  rw [assess_trace]
  simp [buildRequest, requestUrl, stringifyEventBody]

/-- Claim C8: every invocation consults the transport exactly once: the
request trace grows by exactly one element (the built request) on every
outcome, and an invocation started with an empty trace has issued exactly
one call when it returns. -/
theorem assess_exactly_one_call (p : String → Option Json)
    (t : HttpRequest → FetchOutcome) (o : AssessOptions) (calls : List HttpRequest) :
    (assessRecaptchaToken p t o calls).2 = calls ++ [buildRequest o] ∧
    ((assessRecaptchaToken p t o []).2).length = 1 := by
  constructor
  · exact assess_trace p t o calls
  · rw [assess_trace]
    rfl

/-- Claim C9: the operation is deterministic and stateless: the result does
not depend on the trace of previous calls, so a second invocation with the
same inputs (run after the first, on the state the first produced) returns
the same result as the first. -/
theorem assess_deterministic (p : String → Option Json)
    (t : HttpRequest → FetchOutcome) (o : AssessOptions) (c : List HttpRequest) :
    (assessRecaptchaToken p t o (assessRecaptchaToken p t o c).2).1 =
      (assessRecaptchaToken p t o c).1 :=
  assess_result_indep_calls p t o _ c

/-- Claim C10: the serialized body of every request sent over the wire
depends only on `token`, `siteKey` and `expectedAction`: two option records
agreeing on those three fields produce identical bodies, whatever their
`api_token` and `projectId`; the credential and project id influence only
the URL. -/
theorem assess_body_independent_of_credentials (p : String → Option Json)
    (t : HttpRequest → FetchOutcome) (o1 o2 : AssessOptions)
    (htok : o1.token = o2.token) (hsite : o1.siteKey = o2.siteKey)
    (hact : o1.expectedAction = o2.expectedAction) :
    ((assessRecaptchaToken p t o1 []).2).map (fun r => r.body) =
      ((assessRecaptchaToken p t o2 []).2).map (fun r => r.body) := by
  rw [assess_trace, assess_trace]
  simp [buildRequest, stringifyEventBody, htok, hsite, hact]

/-- Witness for C10: two option records sharing the event fields but with
different credentials and project ids produce identical bodies. -/
theorem assess_body_independent_of_credentials_witness :
    ((assessRecaptchaToken (fun _ => none) (fun _ => FetchOutcome.throws none)
        ⟨"tok1", "site1", "login", "secretA", "projA"⟩ []).2).map (fun r => r.body) =
      ((assessRecaptchaToken (fun _ => none) (fun _ => FetchOutcome.throws none)
        ⟨"tok1", "site1", "login", "secretB", "projB"⟩ []).2).map (fun r => r.body) :=
  assess_body_independent_of_credentials _ _ _ _ rfl rfl rfl
